import Mathlib

/-!
Shallow embedding of the flask-tts-api repository (src/app.py,
src/twilio_call.py, src/tts_generator.py) and proofs of the spec claims.

Environment variables are modelled as a record of the values read when the
module loads (os.environ.get with default "" yields a plain string; the one
variable read with two different defaults, PUBLIC_BASE_URL, is kept as an
Option). Python string truthiness is non-emptiness. External collaborators
(the TTS model pipeline and the Twilio REST API) are modelled as oracle
parameters describing their outcome, since the code treats them as black
boxes and branches only on success or the raised exception.
-/

namespace FlaskTTS

/-- The environment variables consumed by the two modules
(`twilio_call.py` reads the first four with default `''`;
`PUBLIC_BASE_URL` is the raw optional variable, read with default
`'https://your-public-server.com'` in `twilio_call.py` and default `''`
in `app.py`). -/
structure Env where
  TWILIO_ACCOUNT_SID : String
  TWILIO_AUTH_TOKEN : String
  TWILIO_PHONE_NUMBER : String
  TARGET_PHONE_NUMBER : String
  PUBLIC_BASE_URL : Option String
deriving DecidableEq, Repr

/-- `check_twilio_configured` from `twilio_call.py`:
`bool(TWILIO_ACCOUNT_SID and TWILIO_AUTH_TOKEN and TWILIO_PHONE_NUMBER)`. -/
def check_twilio_configured (env : Env) : Bool :=
  env.TWILIO_ACCOUNT_SID != "" && env.TWILIO_AUTH_TOKEN != "" &&
    env.TWILIO_PHONE_NUMBER != ""

/-- Outcome of the external Twilio SDK import plus `client.calls.create`:
the import may fail (`ImportError`), the API call may raise (caught as a
generic exception with a message), or the call is created with a
provider-assigned sid and status. -/
inductive ProviderOutcome where
  | sdkMissing : ProviderOutcome
  | apiError (msg : String) : ProviderOutcome
  | ok (sid status : String) : ProviderOutcome
deriving DecidableEq, Repr

/-- The dictionary returned by `make_call` (absent keys are `none`). -/
structure CallResult where
  success : Bool
  call_sid : Option String := none
  error : Option String := none
  status : Option String := none
  toNumber : Option String := none
  fromNumber : Option String := none
deriving DecidableEq, Repr

/-- The first line of `make_call`: `to_number = target_number or
TARGET_PHONE_NUMBER` (Python `or`: a `None` or empty provided number falls
back to the environment default). -/
def effective_to_number (env : Env) (target_number : Option String) : String :=
  match target_number with
  | some t => if t != "" then t else env.TARGET_PHONE_NUMBER
  | none => env.TARGET_PHONE_NUMBER

/-- `make_call` from `twilio_call.py`: the `to_number` fallback, then the
three configuration checks in source order, then the SDK import and API
call modelled by `provider`. -/
def make_call (env : Env) (provider : ProviderOutcome)
    (audio_url : String) (target_number : Option String) : CallResult :=
  let _ := audio_url
  let to_number := effective_to_number env target_number
  if env.TWILIO_ACCOUNT_SID = "" ∨ env.TWILIO_AUTH_TOKEN = "" then
    { success := false, error := some "Twilio not configured", call_sid := none }
  else if env.TWILIO_PHONE_NUMBER = "" then
    { success := false, error := some "Twilio phone number not set", call_sid := none }
  else if to_number = "" then
    { success := false, error := some "Target phone number not set", call_sid := none }
  else
    match provider with
    | .sdkMissing =>
        { success := false, error := some "Twilio SDK not installed", call_sid := none }
    | .apiError msg =>
        { success := false, error := some msg, call_sid := none }
    | .ok sid st =>
        { success := true, call_sid := some sid, status := some st,
          toNumber := some to_number, fromNumber := some env.TWILIO_PHONE_NUMBER }

/-- The module-level model state of `app.py`: the four global artifacts
(identified by what `load_models` loads into them), the `models_loaded`
flag, and the sentinel counter the spec's idempotence test describes,
incremented once per execution of the load path. -/
structure AppModels where
  tts_processor : Option String := none
  tts_model : Option String := none
  tts_vocoder : Option String := none
  speaker_embeddings : Option String := none
  models_loaded : Bool := false
  load_count : Nat := 0
deriving DecidableEq, Repr

/-- `load_models` from `app.py`: if `models_loaded` it returns at once;
otherwise it loads the processor, model, vocoder and placeholder speaker
embedding and sets the flag. -/
def load_models (s : AppModels) : AppModels :=
  if s.models_loaded then s
  else
    { tts_processor := some "microsoft/speecht5_tts",
      tts_model := some "microsoft/speecht5_tts",
      tts_vocoder := some "microsoft/speecht5_hifigan",
      speaker_embeddings := some "torch.zeros(1, 512)",
      models_loaded := true,
      load_count := s.load_count + 1 }

/-- The JSON body of the `/health` response, as a record with one field per
possibly-present key (`none` = key absent from the dictionary). -/
structure HealthBody where
  status : String
  models_loaded : Option Bool := none
  twilio_configured : Option Bool := none
deriving DecidableEq, Repr

/-- `health` from `app.py`: `jsonify({"status": "healthy"}), 200`. -/
def health : HealthBody × Nat :=
  ({ status := "healthy" }, 200)

/-- `AUDIO_DIR` from `app.py` (path relative to the module file). -/
def AUDIO_DIR : String := "static/audio"

/-- Response of `/audio/<filename>`: either the 400 rejection with its
error body, or delegation to `send_from_directory`. -/
inductive AudioResponse where
  | badRequest (error : String) : AudioResponse
  | sendFromDirectory (dir file : String) : AudioResponse
deriving DecidableEq, Repr

/-- Python's `str.endswith`, as a suffix test on the character sequences
of the two strings. -/
def endswith (s suf : String) : Bool :=
  suf.data.isSuffixOf s.data

/-- `serve_audio` from `app.py`: reject any filename not ending in
`.wav` with 400, otherwise serve it from `AUDIO_DIR`. -/
def serve_audio (filename : String) : AudioResponse :=
  if !(endswith filename ".wav") then .badRequest "Invalid file type"
  else .sendFromDirectory AUDIO_DIR filename

/-- The parsed JSON body of a `/generate` request: each optional record
field is `none` when the key is absent from the dictionary. The whole body
is `Option GenerateBody` at the call site, `none` covering both a missing
body and a falsy (empty) one, which `app.py` treats like a missing one
(`if not data or ...`). -/
structure GenerateBody where
  text : Option String := none
  make_call : Option Bool := none
  target_number : Option String := none
deriving DecidableEq, Repr

/-- Outcome of the synthesis pipeline (`tts_processor`, `generate_speech`,
`sf.write`): success, or an exception with its string form, caught by the
handler's top-level `except`. -/
inductive SynthOutcome where
  | ok : SynthOutcome
  | err (msg : String) : SynthOutcome
deriving DecidableEq, Repr

/-- The JSON body plus status of a `/generate` response; absent keys are
`none`. -/
structure GenerateResponse where
  status : Nat
  success : Bool
  message : Option String := none
  file : Option String := none
  call_sid : Option String := none
  call_status : Option String := none
  call_error : Option String := none
deriving DecidableEq, Repr

/-- The observable side effects of one `/generate` request: the generated
filename (if the handler reached filename generation), the path written by
`sf.write` (if synthesis completed), and whether `make_call` was invoked. -/
structure Effects where
  filename_generated : Option String := none
  file_written : Option String := none
  call_attempted : Bool := false
deriving DecidableEq, Repr

/-- The unique per-request filename `f"audio_{uuid.uuid4().hex[:8]}.wav"`,
with the 8 hex digits as a parameter. -/
def gen_filename (uuidHex8 : String) : String :=
  "audio_" ++ uuidHex8 ++ ".wav"

/-- The relative route `f"/audio/{filename}"` placed in the response. -/
def audio_route (filename : String) : String :=
  "/audio/" ++ filename

/-- The URL handed to `make_call`: `os.environ.get('PUBLIC_BASE_URL', '')`,
then if truthy `public_base_url.replace('/audio.wav', f'/{filename}')`,
else the relative `audio_url`. -/
def resolve_audio_url (env : Env) (filename : String) : String :=
  let public_base_url := env.PUBLIC_BASE_URL.getD ""
  if public_base_url != "" then
    public_base_url.replace "/audio.wav" ("/" ++ filename)
  else audio_route filename

/-- The over-length rejection message
`f"Text too long ({len(text)} chars). Max 100 characters."`. -/
def lengthErrorMsg (n : Nat) : String :=
  "Text too long (" ++ toString n ++ " chars). Max 100 characters."

/-- The `/generate` handler from `app.py`, producing the response and the
side effects of the request. Branch order follows the source: missing-body
or missing-`text` check, `make_call_flag` and `target_number` extraction,
length check, filename generation, synthesis, then the optional call. -/
def generate (env : Env) (provider : ProviderOutcome) (synth : SynthOutcome)
    (uuidHex8 : String) (data : Option GenerateBody) :
    GenerateResponse × Effects :=
  match data with
  | none =>
      ({ status := 400, success := false,
         message := some "Missing 'text' field in request body" }, {})
  | some d =>
    match d.text with
    | none =>
        ({ status := 400, success := false,
           message := some "Missing 'text' field in request body" }, {})
    | some text =>
      let make_call_flag := d.make_call.getD (check_twilio_configured env)
      let target_number := d.target_number
      if text.length > 100 then
        ({ status := 400, success := false,
           message := some (lengthErrorMsg text.length) }, {})
      else
        let filename := gen_filename uuidHex8
        let output_path := AUDIO_DIR ++ "/" ++ filename
        match synth with
        | .err msg =>
            ({ status := 500, success := false,
               message := some ("Error: " ++ msg) },
             { filename_generated := some filename })
        | .ok =>
          let audio_url := audio_route filename
          let base : GenerateResponse :=
            { status := 200, success := true, file := some audio_url }
          let eff : Effects :=
            { filename_generated := some filename,
              file_written := some output_path }
          if make_call_flag && check_twilio_configured env then
            let full_audio_url := resolve_audio_url env filename
            let call_result := make_call env provider full_audio_url target_number
            let eff := { eff with call_attempted := true }
            if call_result.success then
              ({ base with
                   call_sid := call_result.call_sid,
                   call_status := some (call_result.status.getD "initiated") }, eff)
            else
              ({ base with
                   call_error := some (call_result.error.getD "Unknown error") }, eff)
          else if make_call_flag then
            ({ base with call_error := some "Twilio not configured" }, eff)
          else
            (base, eff)

/-! ## Theorems for the claims -/

/-- C5: `check_twilio_configured` returns true iff all three of
`TWILIO_ACCOUNT_SID`, `TWILIO_AUTH_TOKEN` and `TWILIO_PHONE_NUMBER` are
non-empty, and returns false in each of the three omission cases
independently. -/
theorem check_twilio_configured_iff_all_nonempty (env : Env) :
    (check_twilio_configured env = true ↔
      (env.TWILIO_ACCOUNT_SID ≠ "" ∧ env.TWILIO_AUTH_TOKEN ≠ "" ∧
        env.TWILIO_PHONE_NUMBER ≠ "")) ∧
    (env.TWILIO_ACCOUNT_SID = "" → check_twilio_configured env = false) ∧
    (env.TWILIO_AUTH_TOKEN = "" → check_twilio_configured env = false) ∧
    (env.TWILIO_PHONE_NUMBER = "" → check_twilio_configured env = false) := by
  refine ⟨?_, ?_, ?_, ?_⟩
  · simp [check_twilio_configured, and_assoc]
  · intro h; simp [check_twilio_configured, h]
  · intro h; simp [check_twilio_configured, h]
  · intro h; simp [check_twilio_configured, h]

/-- Witness for C5 at a fully configured environment and the
first-omission environment. -/
theorem check_twilio_configured_iff_all_nonempty_app :
    check_twilio_configured ⟨"sid", "tok", "+15550100", "+15550123", none⟩ = true ∧
    check_twilio_configured ⟨"", "tok", "+15550100", "+15550123", none⟩ = false := by
  constructor
  · exact (check_twilio_configured_iff_all_nonempty
      ⟨"sid", "tok", "+15550100", "+15550123", none⟩).1.mpr
      ⟨by decide, by decide, by decide⟩
  · exact (check_twilio_configured_iff_all_nonempty
      ⟨"", "tok", "+15550100", "+15550123", none⟩).2.1 rfl

/-- C6: `load_models` is idempotent. Once the `models_loaded` flag is set a
call returns the state unchanged; after any first call, a second call is the
identity, so the sentinel `load_count` does not increase on the second
call. -/
theorem load_models_idempotent (s : AppModels) :
    (s.models_loaded = true → load_models s = s) ∧
    load_models (load_models s) = load_models s ∧
    (load_models s).models_loaded = true ∧
    (load_models (load_models s)).load_count = (load_models s).load_count := by
  by_cases hs : s.models_loaded
  · simp [load_models, hs]
  · simp only [Bool.not_eq_true] at hs
    simp [load_models, hs]

/-- Witness for C6: on an already-loaded state the call is a no-op, and on
a fresh state the second call does not increase the counter past 1. -/
theorem load_models_idempotent_app :
    load_models { models_loaded := true, load_count := 1 } =
      { models_loaded := true, load_count := 1 } ∧
    (load_models (load_models {})).load_count = 1 := by
  constructor
  · exact (load_models_idempotent { models_loaded := true, load_count := 1 }).1 rfl
  · have h := (load_models_idempotent {}).2.2.2
    rw [h]; rfl

/-- C7 counterexample: the `/health` response body is
`{"status": "healthy"}` only — it contains neither a `twilio_configured`
key (so in particular it does not report it as `false`) nor a
`models_loaded` key. -/
theorem health_reports_no_twilio_configured :
    health.1.twilio_configured = none ∧
    health.1.twilio_configured ≠ some false ∧
    health.1.models_loaded = none := by
  refine ⟨rfl, ?_, rfl⟩
  intro h
  simp [health] at h

/-- C7 (amended): `GET /health` returns HTTP 200 with the JSON body
`{"status": "healthy"}`; no `twilio_configured` or `models_loaded` field is
present regardless of configuration. -/
theorem health_status_only :
    health = ({ status := "healthy", models_loaded := none,
                twilio_configured := none }, 200) := rfl

/-- C9: `/audio/<filename>` answers 400 with the error body exactly when
the filename does not end in `.wav`; a filename ending in `.wav` is served
from the artifact directory. -/
theorem serve_audio_wav_only (filename : String) :
    (serve_audio filename = .badRequest "Invalid file type" ↔
      endswith filename ".wav" = false) ∧
    (endswith filename ".wav" = true →
      serve_audio filename = .sendFromDirectory AUDIO_DIR filename) := by
  by_cases hf : endswith filename ".wav"
  · simp [serve_audio, hf]
  · simp only [Bool.not_eq_true] at hf
    simp [serve_audio, hf]

/-- Witness for C9: a `.wav` name is served, a `.txt` name is rejected. -/
theorem serve_audio_wav_only_app :
    serve_audio "audio_0a1b2c3d.wav" =
      .sendFromDirectory AUDIO_DIR "audio_0a1b2c3d.wav" ∧
    serve_audio "notes.txt" = .badRequest "Invalid file type" := by
  constructor
  · exact (serve_audio_wav_only "audio_0a1b2c3d.wav").2 (by decide)
  · exact (serve_audio_wav_only "notes.txt").1.mpr (by decide)

/-- C4: every failure of `make_call` is a structured result — success flag
false, `call_sid` `None` and an error string, never an exception — and the
five failure cases produce their five messages: missing credentials,
missing sender number, missing destination number, missing SDK, and the
provider-reported message from the API call; the four fixed messages are
pairwise distinct. -/
theorem make_call_structured_failures (env : Env) (provider : ProviderOutcome)
    (url : String) (tn : Option String) :
    ((make_call env provider url tn).success = false →
      (make_call env provider url tn).call_sid = none ∧
      ((make_call env provider url tn).error).isSome = true) ∧
    (env.TWILIO_ACCOUNT_SID = "" ∨ env.TWILIO_AUTH_TOKEN = "" →
      make_call env provider url tn =
        { success := false, error := some "Twilio not configured" }) ∧
    (env.TWILIO_ACCOUNT_SID ≠ "" → env.TWILIO_AUTH_TOKEN ≠ "" →
      env.TWILIO_PHONE_NUMBER = "" →
      make_call env provider url tn =
        { success := false, error := some "Twilio phone number not set" }) ∧
    (env.TWILIO_ACCOUNT_SID ≠ "" → env.TWILIO_AUTH_TOKEN ≠ "" →
      env.TWILIO_PHONE_NUMBER ≠ "" → effective_to_number env tn = "" →
      make_call env provider url tn =
        { success := false, error := some "Target phone number not set" }) ∧
    (env.TWILIO_ACCOUNT_SID ≠ "" → env.TWILIO_AUTH_TOKEN ≠ "" →
      env.TWILIO_PHONE_NUMBER ≠ "" → effective_to_number env tn ≠ "" →
      provider = .sdkMissing →
      make_call env provider url tn =
        { success := false, error := some "Twilio SDK not installed" }) ∧
    (∀ msg, env.TWILIO_ACCOUNT_SID ≠ "" → env.TWILIO_AUTH_TOKEN ≠ "" →
      env.TWILIO_PHONE_NUMBER ≠ "" → effective_to_number env tn ≠ "" →
      provider = .apiError msg →
      make_call env provider url tn =
        { success := false, error := some msg }) ∧
    (("Twilio not configured" : String) ≠ "Twilio phone number not set" ∧
     ("Twilio not configured" : String) ≠ "Target phone number not set" ∧
     ("Twilio not configured" : String) ≠ "Twilio SDK not installed" ∧
     ("Twilio phone number not set" : String) ≠ "Target phone number not set" ∧
     ("Twilio phone number not set" : String) ≠ "Twilio SDK not installed" ∧
     ("Target phone number not set" : String) ≠ "Twilio SDK not installed") := by
  refine ⟨?_, ?_, ?_, ?_, ?_, ?_, by decide⟩
  · intro hs
    by_cases h1 : env.TWILIO_ACCOUNT_SID = "" ∨ env.TWILIO_AUTH_TOKEN = "" <;>
      by_cases h2 : env.TWILIO_PHONE_NUMBER = "" <;>
      by_cases h3 : effective_to_number env tn = "" <;>
      cases provider <;>
      simp_all [make_call]
  · intro h
    simp only [make_call]
    rw [if_pos h]
  · intro ha hb hc
    simp only [make_call]
    rw [if_neg (by tauto), if_pos hc]
  · intro ha hb hc hd
    simp only [make_call]
    rw [if_neg (by tauto), if_neg hc, if_pos hd]
  · intro ha hb hc hd hp
    subst hp
    simp only [make_call]
    rw [if_neg (by tauto), if_neg hc, if_neg hd]
  · intro msg ha hb hc hd hp
    subst hp
    simp only [make_call]
    rw [if_neg (by tauto), if_neg hc, if_neg hd]

/-- Witness for C4: with no credentials the result is the structured
"Twilio not configured" failure, with no sid and an error present. -/
theorem make_call_structured_failures_app :
    make_call ⟨"", "", "", "", none⟩ .sdkMissing "http://x/a.wav" none =
      { success := false, error := some "Twilio not configured" } ∧
    (make_call ⟨"", "", "", "", none⟩ .sdkMissing "http://x/a.wav" none).call_sid
      = none := by
  have h := (make_call_structured_failures ⟨"", "", "", "", none⟩ .sdkMissing
    "http://x/a.wav" none).2.1 (Or.inl rfl)
  exact ⟨h, by rw [h]⟩

/-- C8 counterexample: a provided-but-empty `target_number` is not used;
Python's `or` falls back to the environment default, so the call succeeds
with `to` echoing the default number instead of the provided empty one. -/
theorem make_call_empty_target_not_used :
    (make_call ⟨"sid", "tok", "+15550100", "+15550123", none⟩
        (.ok "CA123" "queued") "http://x/a.wav" (some "")).success = true ∧
    (make_call ⟨"sid", "tok", "+15550100", "+15550123", none⟩
        (.ok "CA123" "queued") "http://x/a.wav" (some "")).toNumber =
      some "+15550123" ∧
    (make_call ⟨"sid", "tok", "+15550100", "+15550123", none⟩
        (.ok "CA123" "queued") "http://x/a.wav" (some "")).toNumber ≠
      some "" := by
  refine ⟨rfl, rfl, by decide⟩

/-- C8 (amended): when `target_number` is absent — or provided but empty,
which Python's `or` treats the same — the destination used and echoed in
the success result's `to` field is the environment default
`TARGET_PHONE_NUMBER`; when a non-empty `target_number` is provided, it is
the one used and echoed. -/
theorem make_call_target_number_fallback (env : Env)
    (provider : ProviderOutcome) (url : String) :
    ((make_call env provider url none).success = true →
      (make_call env provider url none).toNumber =
        some env.TARGET_PHONE_NUMBER) ∧
    make_call env provider url (some "") = make_call env provider url none ∧
    (∀ t, t ≠ "" → (make_call env provider url (some t)).success = true →
      (make_call env provider url (some t)).toNumber = some t) := by
  refine ⟨?_, rfl, ?_⟩
  · intro hs
    by_cases h1 : env.TWILIO_ACCOUNT_SID = "" ∨ env.TWILIO_AUTH_TOKEN = "" <;>
      by_cases h2 : env.TWILIO_PHONE_NUMBER = "" <;>
      by_cases h3 : effective_to_number env none = "" <;>
      cases provider <;>
      simp_all [make_call, effective_to_number]
  · intro t ht hs
    by_cases h1 : env.TWILIO_ACCOUNT_SID = "" ∨ env.TWILIO_AUTH_TOKEN = "" <;>
      by_cases h2 : env.TWILIO_PHONE_NUMBER = "" <;>
      by_cases h3 : effective_to_number env (some t) = "" <;>
      cases provider <;>
      simp_all [make_call, effective_to_number, bne_iff_ne]

/-- Witness for C8 (amended): a configured environment with a non-empty
provided number echoes that number; with no provided number it echoes the
default. -/
theorem make_call_target_number_fallback_app :
    (make_call ⟨"sid", "tok", "+15550100", "+15550123", none⟩
        (.ok "CA123" "queued") "http://x/a.wav" (some "+15550199")).toNumber =
      some "+15550199" ∧
    (make_call ⟨"sid", "tok", "+15550100", "+15550123", none⟩
        (.ok "CA123" "queued") "http://x/a.wav" none).toNumber =
      some "+15550123" := by
  constructor
  · exact (make_call_target_number_fallback ⟨"sid", "tok", "+15550100",
      "+15550123", none⟩ (.ok "CA123" "queued") "http://x/a.wav").2.2
      "+15550199" (by decide) rfl
  · exact (make_call_target_number_fallback ⟨"sid", "tok", "+15550100",
      "+15550123", none⟩ (.ok "CA123" "queued") "http://x/a.wav").1 rfl

/-- The decimal rendering of the text's length occurs inside the
over-length rejection message. -/
theorem lengthErrorMsg_contains (n : Nat) :
    List.IsInfix (toString n).data (lengthErrorMsg n).data := by
  refine ⟨"Text too long (".data, " chars). Max 100 characters.".data, ?_⟩
  rw [lengthErrorMsg, String.data_append, String.data_append]

/-- In the success path (`text` present, length within bound, synthesis
succeeding) the response always carries status 200, `success: true` and
the `/audio/<filename>` file reference, whatever the call branch does. -/
theorem generate_ok_core (env : Env) (p : ProviderOutcome) (u text : String)
    (mc : Option Bool) (tnum : Option String) (h : ¬ 100 < text.length) :
    (generate env p .ok u (some ⟨some text, mc, tnum⟩)).1.status = 200 ∧
    (generate env p .ok u (some ⟨some text, mc, tnum⟩)).1.success = true ∧
    (generate env p .ok u (some ⟨some text, mc, tnum⟩)).1.file =
      some (audio_route (gen_filename u)) := by
  refine ⟨?_, ?_, ?_⟩ <;>
    · simp only [generate]
      rw [if_neg h]
      split
      · split <;> rfl
      · split <;> rfl

/-- C1: a `/generate` request whose body has a `text` field is rejected
with 400, `success: false` and a message containing the numeric length
when the text is longer than 100 characters; when the length is at most
100 and synthesis succeeds, it answers 200 with `success: true` and the
file reference. -/
theorem generate_text_validation (env : Env) (p : ProviderOutcome)
    (synth : SynthOutcome) (u text : String) (mc : Option Bool)
    (tnum : Option String) :
    (100 < text.length →
      (generate env p synth u (some ⟨some text, mc, tnum⟩)).1 =
        { status := 400, success := false,
          message := some (lengthErrorMsg text.length) } ∧
      List.IsInfix (toString text.length).data
        (lengthErrorMsg text.length).data) ∧
    (text.length ≤ 100 → synth = .ok →
      (generate env p synth u (some ⟨some text, mc, tnum⟩)).1.status = 200 ∧
      (generate env p synth u (some ⟨some text, mc, tnum⟩)).1.success = true ∧
      (generate env p synth u (some ⟨some text, mc, tnum⟩)).1.file =
        some (audio_route (gen_filename u))) := by
  constructor
  · intro hl
    refine ⟨?_, lengthErrorMsg_contains text.length⟩
    simp [generate, hl]
  · intro hl hsynth
    subst hsynth
    exact generate_ok_core env p u text mc tnum (by omega)

/-- Witness for C1: a 101-character text is rejected with 400, an
11-character text with successful synthesis is accepted with 200. -/
theorem generate_text_validation_app :
    (generate ⟨"", "", "", "", none⟩ .sdkMissing .ok "0a1b2c3d"
        (some ⟨some "xxxxxxxxxxxxxxxxxxxxxxxxxxxxxxxxxxxxxxxxxxxxxxxxxxxxxxxxxxxxxxxxxxxxxxxxxxxxxxxxxxxxxxxxxxxxxxxxxxxxx", some false, none⟩)).1.status = 400 ∧
    (generate ⟨"", "", "", "", none⟩ .sdkMissing .ok "0a1b2c3d"
        (some ⟨some "Hello world", some false, none⟩)).1.status = 200 := by
  constructor
  · have h := (generate_text_validation ⟨"", "", "", "", none⟩ .sdkMissing .ok
      "0a1b2c3d" "xxxxxxxxxxxxxxxxxxxxxxxxxxxxxxxxxxxxxxxxxxxxxxxxxxxxxxxxxxxxxxxxxxxxxxxxxxxxxxxxxxxxxxxxxxxxxxxxxxxxx"
      (some false) none).1 (by decide)
    rw [h.1]
  · exact ((generate_text_validation ⟨"", "", "", "", none⟩ .sdkMissing .ok
      "0a1b2c3d" "Hello world" (some false) none).2 (by decide) rfl).1

/-- C2: a `/generate` request with no (or falsy) body, or a body without a
`text` key, is answered 400 with `success: false` and exactly the message
"Missing 'text' field in request body". -/
theorem generate_missing_text (env : Env) (p : ProviderOutcome)
    (synth : SynthOutcome) (u : String) :
    (generate env p synth u none).1 =
      { status := 400, success := false,
        message := some "Missing 'text' field in request body" } ∧
    (∀ mc tnum, (generate env p synth u (some ⟨none, mc, tnum⟩)).1 =
      { status := 400, success := false,
        message := some "Missing 'text' field in request body" }) :=
  ⟨rfl, fun _ _ => rfl⟩

/-- C3: when synthesis succeeds and the effective call flag is set, the
response is 200 with `success: true` whatever the call outcome; if the
Call Client is not configured or reports failure, the failure appears only
as a `call_error` field with no `call_sid`. -/
theorem generate_call_failure_embedded (env : Env) (p : ProviderOutcome)
    (u text : String) (mc : Option Bool) (tnum : Option String)
    (hlen : text.length ≤ 100)
    (hflag : mc.getD (check_twilio_configured env) = true)
    (hfail : check_twilio_configured env = false ∨
      (make_call env p (resolve_audio_url env (gen_filename u)) tnum).success
        = false) :
    (generate env p .ok u (some ⟨some text, mc, tnum⟩)).1.status = 200 ∧
    (generate env p .ok u (some ⟨some text, mc, tnum⟩)).1.success = true ∧
    (generate env p .ok u (some ⟨some text, mc, tnum⟩)).1.call_sid = none ∧
    ((generate env p .ok u (some ⟨some text, mc, tnum⟩)).1.call_error).isSome
      = true := by
  have h : ¬ 100 < text.length := by omega
  by_cases hb : check_twilio_configured env = true
  · have hcall : (make_call env p (resolve_audio_url env (gen_filename u))
        tnum).success = false := by
      rcases hfail with hconf | hcall
      · rw [hb] at hconf; cases hconf
      · exact hcall
    have hflag1 : mc.getD true = true := by rw [hb] at hflag; exact hflag
    refine ⟨?_, ?_, ?_, ?_⟩ <;>
      · simp only [generate]
        rw [if_neg h]
        simp [hb, hflag1, hcall]
  · simp only [Bool.not_eq_true] at hb
    have hflag2 : mc.getD false = true := by rw [hb] at hflag; exact hflag
    refine ⟨?_, ?_, ?_, ?_⟩ <;>
      · simp only [generate]
        rw [if_neg h]
        simp [hb, hflag2]

/-- Witness for C3: with no credentials configured and `make_call: true`,
the request still answers 200 with an embedded error and no sid. -/
theorem generate_call_failure_embedded_app :
    (generate ⟨"", "", "", "", none⟩ .sdkMissing .ok "0a1b2c3d"
        (some ⟨some "Hi", some true, none⟩)).1.status = 200 ∧
    (generate ⟨"", "", "", "", none⟩ .sdkMissing .ok "0a1b2c3d"
        (some ⟨some "Hi", some true, none⟩)).1.call_sid = none ∧
    ((generate ⟨"", "", "", "", none⟩ .sdkMissing .ok "0a1b2c3d"
        (some ⟨some "Hi", some true, none⟩)).1.call_error).isSome = true := by
  have h := generate_call_failure_embedded ⟨"", "", "", "", none⟩ .sdkMissing
    "0a1b2c3d" "Hi" (some true) none (by decide) rfl (Or.inl rfl)
  exact ⟨h.1, h.2.2.1, h.2.2.2⟩

/-- C10: whenever `/generate` answers 400 (missing text or over-length
text), no side effect has happened: no filename was generated, no file was
written, no call was attempted. -/
theorem generate_400_no_side_effects (env : Env) (p : ProviderOutcome)
    (synth : SynthOutcome) (u : String) (data : Option GenerateBody)
    (h400 : (generate env p synth u data).1.status = 400) :
    (generate env p synth u data).2 =
      { filename_generated := none, file_written := none,
        call_attempted := false } := by
  rcases data with _ | ⟨t, mc, tnum⟩
  · rfl
  · rcases t with _ | text
    · rfl
    · by_cases hl : 100 < text.length
      · simp [generate, hl]
      · exfalso
        rcases synth with _ | msg
        · revert h400
          simp only [generate]
          rw [if_neg hl]
          split
          · split <;> simp
          · split <;> simp
        · revert h400
          simp only [generate]
          rw [if_neg hl]
          simp

/-- Witness for C10: the missing-body rejection leaves the effect record
empty. -/
theorem generate_400_no_side_effects_app :
    (generate ⟨"", "", "", "", none⟩ .sdkMissing .ok "0a1b2c3d" none).2 =
      { filename_generated := none, file_written := none,
        call_attempted := false } :=
  generate_400_no_side_effects ⟨"", "", "", "", none⟩ .sdkMissing .ok
    "0a1b2c3d" none rfl

end FlaskTTS
